import Mathlib

/-!
Verification development for `design_bench/oracles/tensorflow/fully_connected_oracle.py`
(class `FullyConnectedOracle`).

The Python module is a thin adapter around external libraries (tensorflow/keras,
numpy, scipy, the Python `zipfile` and `tempfile` modules).  The shallow
embedding below translates the module's own code faithfully and models the
external collaborators at their interface:

* a trained keras model is modelled by its per-design scoring function
  (`KModel`); keras's batched `model.predict` is the row-wise application of
  that function (`kPredict`);
* serialized byte strings are modelled by their parsed content (`Bytes`):
  the external serializers (keras h5 save/load, numpy pickle dumps/loads) are
  injective encodings that round-trip, which is their documented behaviour;
* a zip archive is the ordered list of its (name, bytes) entries; reading an
  entry name resolves to the last entry written under that name, as in
  CPython's `zipfile`;
* Python's `with tempfile.NamedTemporaryFile()` statement is modelled by a
  scoped combinator over an explicit file-system state: the temporary file is
  created on entry and removed on exit on both the normal and the error path,
  which is the documented semantics of the context manager;
* training (`keras.Model.fit` together with `create_tensorflow_dataset` from
  the base class) and scipy's Spearman correlation are opaque external
  functions, taken as parameters.
-/

namespace DesignBench

/-- A design is a row of numeric features; a batch is a list of rows. -/
abbrev Row := List Float

/-- A batch of designs (or of measurements): one row per element. -/
abbrev Matrix := List Row

/-- A trained keras model, modelled by the scalar scoring function it computes
on a single design row.  The architecture that produced it is recorded
separately (`Arch`); once trained the model is an opaque score function. -/
structure KModel where
  score : Row → Float

/-- `model.predict(x)` of a single-output keras network: one scalar prediction
per design row, in the order of the input batch, output shape (batch, 1). -/
def kPredict (m : KModel) (x : Matrix) : Matrix :=
  x.map (fun row => [m.score row])

/-- The dictionary returned by `fit` and stored in `self.model`:
`dict(model=..., rank_correlation=...)`, exactly two fields. -/
structure ModelDict where
  model : KModel
  rankCorrelation : Float

/-- A dataset as seen by this oracle: `isinstance(dataset, DiscreteDataset)`
is the flag `isDiscrete`; `is_logits`, `num_classes` are only meaningful for
discrete datasets; `input_shape`, `dataset_size`, and the raw design and
measurement arrays come from the dataset collaborator. -/
structure Dataset where
  isDiscrete : Bool
  isLogits : Bool
  numClasses : Nat
  inputShape : List Nat
  datasetSize : Nat
  x : Matrix
  y : Matrix

/-- Modelled from the spec: the base oracle collaborator (class
`TensorflowOracle` / `ApproximateOracle`, not part of this file's source)
supplies the `dataset_to_oracle_x` / `dataset_to_oracle_y` transforms and the
`internal_batch_size` attribute used by `fit`. -/
structure OracleCfg where
  toOracleX : Matrix → Matrix
  toOracleY : Matrix → Matrix
  internalBatchSize : Nat

/-- Modelled from the spec: the mutable oracle instance state owned by the
base `ApproximateOracle` class (not part of this file's source).  `self.model`
is absent until `fit` or a load succeeds, and holds the model dictionary
afterwards. -/
structure OracleState where
  model : Option ModelDict

/-- Python-level errors surfaced by this module's code paths. -/
inductive Err
  | attributeError
  | keyError
  | unpicklingError
  | valueError
  deriving DecidableEq

/-! ### Serialized bytes, zip archives, temporary files -/

/-- A serialized byte string, modelled by its parsed content.  `h5` is the
native keras h5 serialization of a model, `npy` is the numpy pickle of a
scalar; both external encodings are injective and round-trip. -/
inductive Bytes
  | h5 (m : KModel)
  | npy (v : Float)

/-- `model.save(path, save_format='h5')` followed by reading the file back:
the h5 byte representation of the model. -/
def kerasSaveH5 (m : KModel) : Bytes := Bytes.h5 m

/-- `keras.models.load_model(path)` on a buffer holding the given bytes:
succeeds exactly on h5-serialized model bytes. -/
def kerasLoadH5 : Bytes → Except Err KModel
  | Bytes.h5 m => Except.ok m
  | _ => Except.error Err.valueError

/-- `value.dumps()` on a numpy scalar: its pickled bytes. -/
def npDumps (v : Float) : Bytes := Bytes.npy v

/-- `np.loads(bytes)`: unpickles a numpy scalar, failing on anything else. -/
def npLoads : Bytes → Option Float
  | Bytes.npy v => some v
  | _ => none

/-- A zip archive: the ordered list of its entries, each a name paired with
the bytes written for it. -/
abbrev Zip := List (String × Bytes)

/-- `zip_archive.open(name, "w")` followed by `file.write(data)`: appends an
entry to the archive. -/
def zipWrite (z : Zip) (name : String) (data : Bytes) : Zip :=
  z ++ [(name, data)]

/-- `zip_archive.open(name, "r")` followed by `file.read()`: the bytes of the
last entry written under `name`, or failure (`KeyError`) when absent. -/
def zipRead (z : Zip) (name : String) : Option Bytes :=
  (z.reverse.find? (fun e => e.1 == name)).map (fun e => e.2)

/-- The on-disk temporary-file state: the set of temporary files currently in
existence, as a list of file identifiers. -/
structure FS where
  tmp : List Nat

/-- A fresh temporary file name, distinct from every existing one. -/
def FS.fresh (σ : FS) : Nat := σ.tmp.foldr max 0 + 1

/-- Creating a temporary file. -/
def FS.create (σ : FS) (f : Nat) : FS := ⟨f :: σ.tmp⟩

/-- Removing a temporary file. -/
def FS.remove (σ : FS) (f : Nat) : FS := ⟨σ.tmp.erase f⟩

/-- `with tempfile.NamedTemporaryFile() as file: body` — the context manager
creates a fresh temporary file immediately before the body runs and removes
it when the block exits, on the normal path and on the error path alike
(the error then propagates). -/
def withTempFile (σ : FS) (body : Nat → FS → Except Err α × FS) :
    Except Err α × FS :=
  let f := σ.fresh
  let r := body f (σ.create f)
  (r.1, (r.2).remove f)

/-! ### The oracle's own methods -/

/-- The keyword arguments `FullyConnectedOracle.__init__` passes to the base
class constructor via `super().__init__`. -/
structure InitArgs where
  isBatched : Bool
  internalBatchSize : Nat
  internalMeasurements : Nat
  noiseStd : Float
  expectNormalizedY : Bool
  expectNormalizedX : Bool
  expectLogits : Option Bool

/-- `FullyConnectedOracle.__init__(dataset, noise_std, batch_size)`: the
configuration handed to the base oracle.  `expect_logits` is the Python value
`False` for a discrete dataset and `None` otherwise. -/
def initSuperArgs (dataset : Dataset) (noiseStd : Float) (batchSize : Nat) :
    InitArgs where
  isBatched := true
  internalBatchSize := batchSize
  internalMeasurements := 1
  noiseStd := noiseStd
  expectNormalizedY := true
  expectNormalizedX := !dataset.isDiscrete
  expectLogits := if dataset.isDiscrete then some false else none

/-- `FullyConnectedOracle.check_input_format(dataset)`. -/
def check_input_format (_dataset : Dataset) : Bool :=
  true

/-- `save_model_to_zip(model, zip_archive)`, instrumented with the
temporary-file state.  The keras h5 serialization step inside the temporary
file scope is a parameter `kSave` so that its failure path is covered; the
real serializer is `kerasSaveH5`. -/
def saveModelToZipFS (kSave : KModel → Except Err Bytes) (model : ModelDict)
    (zipArchive : Zip) (σ : FS) : Except Err Zip × FS :=
  let r := withTempFile σ (fun _f σ1 => (kSave model.model, σ1))
  match r.1 with
  | Except.error e => (Except.error e, r.2)
  | Except.ok modelBytes =>
      let z1 := zipWrite zipArchive "fully_connected.h5" modelBytes
      let z2 := zipWrite z1 "rank_correlation.npy" (npDumps model.rankCorrelation)
      (Except.ok z2, r.2)

/-- `load_model_from_zip(zip_archive)`, instrumented with the temporary-file
state.  Reads the rank correlation entry, then the h5 entry, then
reconstructs the model through a temporary file buffer; the keras
deserialization step is a parameter `kLoad`, really `kerasLoadH5`. -/
def loadModelFromZipFS (kLoad : Bytes → Except Err KModel) (zipArchive : Zip)
    (σ : FS) : Except Err ModelDict × FS :=
  match zipRead zipArchive "rank_correlation.npy" with
  | none => (Except.error Err.keyError, σ)
  | some rb =>
    match npLoads rb with
    | none => (Except.error Err.unpicklingError, σ)
    | some rankCorrelation =>
      match zipRead zipArchive "fully_connected.h5" with
      | none => (Except.error Err.keyError, σ)
      | some modelBytes =>
        withTempFile σ (fun _f σ1 =>
          ((kLoad modelBytes).map
            (fun m => ModelDict.mk m rankCorrelation), σ1))

/-- `save_model_to_zip` with the real keras serializer: the resulting archive
(the temporary-file bookkeeping stripped away). -/
def save_model_to_zip (model : ModelDict) (zipArchive : Zip) : Except Err Zip :=
  (saveModelToZipFS (fun m => Except.ok (kerasSaveH5 m)) model zipArchive ⟨[]⟩).1

/-- `load_model_from_zip` with the real keras deserializer. -/
def load_model_from_zip (zipArchive : Zip) : Except Err ModelDict :=
  (loadModelFromZipFS kerasLoadH5 zipArchive ⟨[]⟩).1

/-! ### fit -/

/-- `fit`, lines 216-218: the expected input shape of the model; for a
discrete, logit-encoded dataset the trailing logit axis is dropped. -/
def fitInputShape (training : Dataset) : List Nat :=
  if training.isDiscrete && training.isLogits then
    training.inputShape.dropLast
  else
    training.inputShape

/-- The network architecture built by `fit`, lines 220-239: the keras input
layer's shape, the optional embedding (present exactly for discrete datasets,
mapping `num_classes` indices to `hidden_size`-wide vectors), a flatten step,
then `num_layers` blocks of dense / layer-normalization / activation, and a
final single-unit dense output layer. -/
structure Arch where
  inputShape : List Nat
  embedding : Option (Nat × Nat)
  hiddenSize : Nat
  activation : String
  numLayers : Nat
  outputUnits : Nat

/-- `fit`, lines 220-239: assembling the architecture. -/
def fitArch (training : Dataset) (hiddenSize : Nat) (activation : String)
    (numLayers : Nat) : Arch where
  inputShape := fitInputShape training
  embedding :=
    if training.isDiscrete then some (training.numClasses, hiddenSize) else none
  hiddenSize := hiddenSize
  activation := activation
  numLayers := numLayers
  outputUnits := 1

/-- `fit`, lines 241-243: `int(math.ceil(training.dataset_size /
self.internal_batch_size))`, the number of training steps per epoch. -/
def fitSteps (datasetSize batchSize : Nat) : Nat :=
  (datasetSize + batchSize - 1) / batchSize

/-- The configuration of `keras.experimental.CosineDecay(initial_learning_rate,
decay_steps, alpha)`. -/
structure CosineDecaySpec where
  initialLearningRate : ℚ
  decaySteps : Nat
  alpha : ℚ
  deriving DecidableEq

/-- The optimizer handed to `model.compile`. -/
inductive OptimizerSpec
  | adam (schedule : CosineDecaySpec)
  deriving DecidableEq

/-- The arguments of `model.compile(optimizer=..., loss=...)`. -/
structure CompileSpec where
  optimizer : OptimizerSpec
  loss : String
  deriving DecidableEq

/-- Everything `fit` configures for the training run: the architecture, the
compile arguments (lines 245-249) and the arguments of the `model.fit` /
`create_tensorflow_dataset` calls (lines 251-256). -/
structure TrainPlan where
  arch : Arch
  compile : CompileSpec
  stepsPerEpoch : Nat
  epochs : Nat
  batchSize : Nat
  shuffleBuffer : Nat
  validationX : Matrix
  validationY : Matrix

/-- `fit`, lines 241-256: the training configuration assembled from the
dataset and hyperparameters. -/
def fitPlan (cfg : OracleCfg) (training : Dataset) (validationX validationY : Matrix)
    (hiddenSize : Nat) (activation : String) (numLayers : Nat)
    (epochs : Nat) (shuffleBuffer : Nat) (learningRate : ℚ) : TrainPlan where
  arch := fitArch training hiddenSize activation numLayers
  compile :=
    { optimizer := OptimizerSpec.adam
        { initialLearningRate := learningRate
          decaySteps := fitSteps training.datasetSize cfg.internalBatchSize * epochs
          alpha := 0 }
      loss := "mse" }
  stepsPerEpoch := fitSteps training.datasetSize cfg.internalBatchSize
  epochs := epochs
  batchSize := cfg.internalBatchSize
  shuffleBuffer := shuffleBuffer
  validationX := validationX
  validationY := validationY

/-- `array[:, 0]`: the first column of a 2-d array. -/
def column0 (m : Matrix) : Row :=
  m.map (fun row => row.headD 0)

/-- `FullyConnectedOracle.fit(dataset, ...)`.  The dataset has already been
split by the dataset collaborator into `training` and `validation`
(`dataset.split(**kwargs)`, external).  `train` is the external keras
training loop (`model.compile` + `model.fit` over the tensorflow dataset
stream) producing the trained model from the built architecture and plan;
`spearman` is `scipy.stats.spearmanr(..., ...)[0]`.  Returns
`dict(model=..., rank_correlation=...)`. -/
def fit (train : Arch → TrainPlan → Dataset → KModel)
    (spearman : Row → Row → Float) (cfg : OracleCfg)
    (training validation : Dataset)
    (hiddenSize : Nat) (activation : String) (numLayers : Nat)
    (epochs : Nat) (shuffleBuffer : Nat) (learningRate : ℚ) : ModelDict :=
  let validationX := cfg.toOracleX validation.x
  let validationY := cfg.toOracleY validation.y
  let plan := fitPlan cfg training validationX validationY
    hiddenSize activation numLayers epochs shuffleBuffer learningRate
  let model := train plan.arch plan training
  let rankCorrelation :=
    spearman (column0 (kPredict model validationX)) (column0 validationY)
  ModelDict.mk model rankCorrelation

/-- `FullyConnectedOracle.protected_predict(x)`: reads `self.model` and calls
`self.model["model"].predict(x)`.  The oracle state is threaded explicitly;
when no model has been fitted or loaded the attribute access fails. -/
def protected_predict (st : OracleState) (x : Matrix) :
    Except Err (Matrix × OracleState) :=
  match st.model with
  | none => Except.error Err.attributeError
  | some md => Except.ok (kPredict md.model x, st)

/-! ### Semantics of the cosine learning-rate schedule -/

/-- The value of `keras.experimental.CosineDecay(initialLearningRate,
decaySteps, alpha)` at a given step, following the tensorflow definition:
`step` is clamped to `decay_steps`, then the rate is
`lr * ((1 - alpha) * (1 + cos(pi * step / decay_steps)) / 2 + alpha)`. -/
noncomputable def cosineDecayValue (lr decaySteps alpha step : ℝ) : ℝ :=
  let s := min step decaySteps
  let cosineDecay := (1 + Real.cos (Real.pi * s / decaySteps)) / 2
  lr * ((1 - alpha) * cosineDecay + alpha)

/-! ### Helper lemmas about zip archives and the file system -/

/-- Reading back the entry name just written yields the bytes written. -/
theorem zipRead_write_self (z : Zip) (n : String) (b : Bytes) :
    zipRead (zipWrite z n b) n = some b := by
  simp [zipRead, zipWrite]

/-- Writing one entry does not disturb reads of a different entry name. -/
theorem zipRead_write_other (z : Zip) (n m : String) (b : Bytes) (h : m ≠ n) :
    zipRead (zipWrite z n b) m = zipRead z m := by
  have hb : (n == m) = false := beq_eq_false_iff_ne.mpr (Ne.symm h)
  simp [zipRead, zipWrite, List.find?_cons, hb]

/-- The archive produced by `save_model_to_zip`, explicitly. -/
theorem save_model_to_zip_eq (md : ModelDict) (z : Zip) :
    save_model_to_zip md z =
      Except.ok (zipWrite (zipWrite z "fully_connected.h5" (Bytes.h5 md.model))
        "rank_correlation.npy" (Bytes.npy md.rankCorrelation)) := rfl

/-- `withTempFile` restores the temporary-file state whenever its body leaves
the state as it received it. -/
theorem withTempFile_fs (σ : FS) (body : Nat → FS → Except Err α × FS)
    (h : ∀ f σ1, (body f σ1).2 = σ1) :
    (withTempFile σ body).2 = σ := by
  simp [withTempFile, FS.create, FS.remove, h]

/-! ### Claim theorems -/

/-- C7: `check_input_format` returns true for every dataset argument: the
compatibility predicate is unconditionally true and enforces no shape or
type restriction. -/
theorem check_input_format_always_true (dataset : Dataset) :
    check_input_format dataset = true := rfl

/-- C10: the constructor configures the base oracle with `is_batched = True`,
`internal_measurements = 1`, `expect_normalized_y = True`, passes the batch
size through as `internal_batch_size`, sets `expect_normalized_x` to true
exactly when the dataset is not discrete, and sets `expect_logits` to
`False` for a discrete dataset and to `None` otherwise. -/
theorem init_super_args_values (dataset : Dataset) (noiseStd : Float)
    (batchSize : Nat) :
    (initSuperArgs dataset noiseStd batchSize).isBatched = true
    ∧ (initSuperArgs dataset noiseStd batchSize).internalMeasurements = 1
    ∧ (initSuperArgs dataset noiseStd batchSize).expectNormalizedY = true
    ∧ (initSuperArgs dataset noiseStd batchSize).internalBatchSize = batchSize
    ∧ (initSuperArgs dataset noiseStd batchSize).expectNormalizedX
        = !dataset.isDiscrete
    ∧ (initSuperArgs dataset noiseStd batchSize).expectLogits
        = (if dataset.isDiscrete then some false else none) :=
  ⟨rfl, rfl, rfl, rfl, rfl, rfl⟩

/-- C6: the archive produced by `save_model_to_zip` extends the archive by
exactly two entries with the fixed names `fully_connected.h5` (the model's
native h5 serialization) and `rank_correlation.npy` (the pickled stored
correlation scalar), and nothing else. -/
theorem save_model_to_zip_entries (md : ModelDict) (z : Zip) :
    save_model_to_zip md z =
      Except.ok (z ++ [("fully_connected.h5", kerasSaveH5 md.model),
        ("rank_correlation.npy", npDumps md.rankCorrelation)]) := by
  rw [save_model_to_zip_eq]
  simp [zipWrite, kerasSaveH5, npDumps]

/-- C1: persistence round-trips exactly: saving a model dictionary with
`save_model_to_zip` and reloading with `load_model_from_zip` yields the very
same model dictionary, hence identical predictions on every input batch and
a stored rank correlation equal to the saved value. -/
theorem save_load_round_trip (md : ModelDict) (z : Zip) (x : Matrix) :
    (save_model_to_zip md z).bind load_model_from_zip = Except.ok md
    ∧ ((save_model_to_zip md z).bind load_model_from_zip).map
        (fun d => kPredict d.model x) = Except.ok (kPredict md.model x)
    ∧ ((save_model_to_zip md z).bind load_model_from_zip).map
        (fun d => d.rankCorrelation) = Except.ok md.rankCorrelation := by
  have h1 : (save_model_to_zip md z).bind load_model_from_zip = Except.ok md := by
    rw [save_model_to_zip_eq]
    show load_model_from_zip _ = _
    unfold load_model_from_zip loadModelFromZipFS
    rw [zipRead_write_self,
      zipRead_write_other _ _ _ _ (by decide), zipRead_write_self]
    rfl
  exact ⟨h1, by rw [h1]; rfl, by rw [h1]; rfl⟩

/-- C2: calling `protected_predict` before any model has been fitted or
loaded fails with an attribute error for every input batch. -/
theorem protected_predict_without_model (st : OracleState) (x : Matrix)
    (h : st.model = none) :
    protected_predict st x = Except.error Err.attributeError := by
  simp [protected_predict, h]

/-- Witness for C2 at a concrete unfitted state and input. -/
theorem protected_predict_without_model_witness :
    protected_predict ⟨none⟩ [[1], [2]] = Except.error Err.attributeError :=
  protected_predict_without_model ⟨none⟩ [[1], [2]] rfl

/-- C8: once a model is present, `protected_predict` returns the stored
model's batched predictions — one scalar row per design, in input order —
and leaves the oracle state (model and rank correlation included)
unchanged. -/
theorem protected_predict_with_model (st : OracleState) (md : ModelDict)
    (x : Matrix) (h : st.model = some md) :
    protected_predict st x = Except.ok (kPredict md.model x, st)
    ∧ kPredict md.model x = x.map (fun row => [md.model.score row])
    ∧ (kPredict md.model x).length = x.length := by
  exact ⟨by simp [protected_predict, h], rfl, by simp [kPredict]⟩

/-- Witness for C8 at a concrete fitted state and two-design batch. -/
theorem protected_predict_with_model_witness :
    protected_predict ⟨some ⟨⟨fun _ => (0 : Float)⟩, 1⟩⟩ [[2], [3]]
        = Except.ok (kPredict ⟨fun _ => (0 : Float)⟩ [[2], [3]],
            ⟨some ⟨⟨fun _ => (0 : Float)⟩, 1⟩⟩)
    ∧ kPredict ⟨fun _ => (0 : Float)⟩ [[2], [3]]
        = ([[2], [3]] : Matrix).map
            (fun row => [(⟨fun _ => (0 : Float)⟩ : KModel).score row])
    ∧ (kPredict ⟨fun _ => (0 : Float)⟩ [[2], [3]]).length
        = ([[2], [3]] : Matrix).length :=
  protected_predict_with_model ⟨some ⟨⟨fun _ => (0 : Float)⟩, 1⟩⟩
    ⟨⟨fun _ => (0 : Float)⟩, 1⟩ [[2], [3]] rfl

/-- C9: serialization and deserialization leave the temporary-file state
exactly as they found it on every exit path — also when the enclosed keras
serialization or deserialization step fails, and on every early error exit
of the load path — so no temporary file is ever left behind. -/
theorem temp_files_always_removed
    (kSave : KModel → Except Err Bytes) (kLoad : Bytes → Except Err KModel)
    (md : ModelDict) (z : Zip) (σ : FS) :
    (saveModelToZipFS kSave md z σ).2 = σ
    ∧ (loadModelFromZipFS kLoad z σ).2 = σ := by
  constructor
  · cases hkS : kSave md.model <;>
      simp [saveModelToZipFS, withTempFile, FS.create, FS.remove, hkS]
  · cases h1 : zipRead z "rank_correlation.npy" with
    | none => simp [loadModelFromZipFS, h1]
    | some rb =>
      cases rb with
      | h5 m => simp [loadModelFromZipFS, h1, npLoads]
      | npy v =>
        cases h2 : zipRead z "fully_connected.h5" with
        | none => simp [loadModelFromZipFS, h1, h2, npLoads]
        | some mb =>
          simp [loadModelFromZipFS, h1, h2, npLoads, withTempFile,
            FS.create, FS.remove]

/-- C3: for a discrete dataset whose designs are logit-encoded with declared
input shape `(N, C)`, `fit` drops the trailing logit axis before building the
architecture, so the network's input shape is `(N,)`; for a non-discrete or
non-logit dataset the declared shape is used unchanged. -/
theorem fit_input_shape_drop_logits (training : Dataset) (hiddenSize : Nat)
    (activation : String) (numLayers : Nat) (N C : Nat) :
    (training.isDiscrete = true → training.isLogits = true →
      training.inputShape = [N, C] →
      (fitArch training hiddenSize activation numLayers).inputShape = [N])
    ∧ (training.isDiscrete = false ∨ training.isLogits = false →
      (fitArch training hiddenSize activation numLayers).inputShape
        = training.inputShape) := by
  constructor
  · intro h1 h2 h3
    simp [fitArch, fitInputShape, h1, h2, h3]
  · intro h
    rcases h with h | h <;> simp [fitArch, fitInputShape, h]

/-- Witness for C3: a discrete logit dataset with shape (3, 5) yields input
shape (3,); a continuous dataset keeps its declared shape (8,). -/
theorem fit_input_shape_drop_logits_witness :
    (fitArch ⟨true, true, 4, [3, 5], 10, [], []⟩ 512 "relu" 2).inputShape = [3]
    ∧ (fitArch ⟨false, false, 0, [8], 100, [], []⟩ 512 "relu" 2).inputShape
        = (⟨false, false, 0, [8], 100, [], []⟩ : Dataset).inputShape :=
  ⟨(fit_input_shape_drop_logits ⟨true, true, 4, [3, 5], 10, [], []⟩
      512 "relu" 2 3 5).1 rfl rfl rfl,
   (fit_input_shape_drop_logits ⟨false, false, 0, [8], 100, [], []⟩
      512 "relu" 2 0 0).2 (Or.inl rfl)⟩

/-- C4: `fit` returns one unit: a dictionary holding exactly the trained
model and the scalar rank correlation, the latter being the Spearman
correlation between the model's predictions on the validation designs
transformed by the oracle's design transform and the validation measurements
transformed by the oracle's measurement transform. -/
theorem fit_returns_model_and_rank_correlation
    (train : Arch → TrainPlan → Dataset → KModel)
    (spearman : Row → Row → Float) (cfg : OracleCfg)
    (training validation : Dataset) (hiddenSize : Nat) (activation : String)
    (numLayers epochs shuffleBuffer : Nat) (learningRate : ℚ) :
    fit train spearman cfg training validation hiddenSize activation numLayers
        epochs shuffleBuffer learningRate
      = ModelDict.mk
          (train (fitArch training hiddenSize activation numLayers)
            (fitPlan cfg training (cfg.toOracleX validation.x)
              (cfg.toOracleY validation.y) hiddenSize activation numLayers
              epochs shuffleBuffer learningRate) training)
          (spearman
            (column0 (kPredict
              (train (fitArch training hiddenSize activation numLayers)
                (fitPlan cfg training (cfg.toOracleX validation.x)
                  (cfg.toOracleY validation.y) hiddenSize activation numLayers
                  epochs shuffleBuffer learningRate) training)
              (cfg.toOracleX validation.x)))
            (column0 (cfg.toOracleY validation.y))) := rfl

/-- The steps-per-epoch computation is the ceiling of the exact division. -/
theorem fitSteps_eq_ceil (n b : Nat) (hb : 0 < b) :
    fitSteps n b = Nat.ceil ((n : ℚ) / (b : ℚ)) := by
  have hbQ : (0 : ℚ) < (b : ℚ) := by exact_mod_cast hb
  have h1 : fitSteps n b = n ⌈/⌉ b := (Nat.ceilDiv_eq_add_pred_div n b).symm
  apply le_antisymm
  · rw [h1, ceilDiv_le_iff_le_mul hb]
    have h2 : (n : ℚ) ≤ (Nat.ceil ((n : ℚ) / (b : ℚ)) : ℚ) * (b : ℚ) := by
      rw [← div_le_iff₀ hbQ]
      exact Nat.le_ceil _
    have h3 : n ≤ Nat.ceil ((n : ℚ) / (b : ℚ)) * b := by exact_mod_cast h2
    exact h3.trans_eq (mul_comm _ _)
  · rw [h1, Nat.ceil_le, div_le_iff₀ hbQ]
    have h4 : n ≤ b * (n ⌈/⌉ b) := (ceilDiv_le_iff_le_mul hb).1 le_rfl
    have h5 : n ≤ (n ⌈/⌉ b) * b := h4.trans_eq (mul_comm _ _)
    exact_mod_cast h5

/-- The cosine schedule starts at the initial learning rate. -/
theorem cosineDecayValue_at_start (lr T : ℝ) (hT : 0 ≤ T) :
    cosineDecayValue lr T 0 0 = lr := by
  simp only [cosineDecayValue, min_eq_left hT, mul_zero, zero_div,
    Real.cos_zero]
  ring

/-- The cosine schedule reaches exactly zero at the end of the horizon. -/
theorem cosineDecayValue_at_horizon (lr T : ℝ) (hT : 0 < T) :
    cosineDecayValue lr T 0 T = 0 := by
  simp only [cosineDecayValue, min_self, mul_div_assoc,
    div_self (ne_of_gt hT), mul_one, Real.cos_pi]
  ring

/-- C5: `fit` computes steps-per-epoch as the ceiling of training set size
over the internal batch size, and configures an Adam optimizer minimizing
mean-squared-error loss under a cosine schedule with `alpha = 0` over a
horizon of `epochs × steps-per-epoch` steps — a schedule whose value starts
at the initial learning rate and reaches exactly zero at the horizon. -/
theorem fit_training_configuration (cfg : OracleCfg) (training : Dataset)
    (validationX validationY : Matrix) (hiddenSize : Nat) (activation : String)
    (numLayers epochs shuffleBuffer : Nat) (learningRate : ℚ)
    (plan : TrainPlan)
    (hplan : plan = fitPlan cfg training validationX validationY hiddenSize
      activation numLayers epochs shuffleBuffer learningRate) :
    (0 < cfg.internalBatchSize →
      plan.stepsPerEpoch
        = Nat.ceil ((training.datasetSize : ℚ) / (cfg.internalBatchSize : ℚ)))
    ∧ plan.compile.loss = "mse"
    ∧ plan.compile.optimizer
        = OptimizerSpec.adam ⟨learningRate, plan.stepsPerEpoch * epochs, 0⟩
    ∧ cosineDecayValue (learningRate : ℝ)
        ((plan.stepsPerEpoch * epochs : ℕ) : ℝ) 0 0 = (learningRate : ℝ)
    ∧ (0 < plan.stepsPerEpoch * epochs →
      cosineDecayValue (learningRate : ℝ)
        ((plan.stepsPerEpoch * epochs : ℕ) : ℝ) 0
        ((plan.stepsPerEpoch * epochs : ℕ) : ℝ) = 0) := by
  subst hplan
  refine ⟨?_, rfl, rfl, ?_, ?_⟩
  · intro hb
    exact fitSteps_eq_ceil _ _ hb
  · exact cosineDecayValue_at_start _ _ (Nat.cast_nonneg _)
  · intro hpos
    exact cosineDecayValue_at_horizon _ _ (by exact_mod_cast hpos)

/-- Witness for C5: a 100-design training set with batch size 32 and 5
epochs gives 4 steps per epoch and a 20-step cosine horizon ending at rate
exactly zero. -/
theorem fit_training_configuration_witness :
    (fitPlan ⟨id, id, 32⟩ ⟨false, false, 0, [8], 100, [], []⟩ [] [] 512 "relu"
        2 5 5000 (1 / 1000)).stepsPerEpoch = Nat.ceil ((100 : ℚ) / (32 : ℚ))
    ∧ (fitPlan ⟨id, id, 32⟩ ⟨false, false, 0, [8], 100, [], []⟩ [] [] 512 "relu"
        2 5 5000 (1 / 1000)).compile.loss = "mse"
    ∧ (fitPlan ⟨id, id, 32⟩ ⟨false, false, 0, [8], 100, [], []⟩ [] [] 512 "relu"
        2 5 5000 (1 / 1000)).compile.optimizer
        = OptimizerSpec.adam ⟨1 / 1000,
            (fitPlan ⟨id, id, 32⟩ ⟨false, false, 0, [8], 100, [], []⟩ [] [] 512
              "relu" 2 5 5000 (1 / 1000)).stepsPerEpoch * 5, 0⟩
    ∧ cosineDecayValue ((1 / 1000 : ℚ) : ℝ)
        (((fitPlan ⟨id, id, 32⟩ ⟨false, false, 0, [8], 100, [], []⟩ [] [] 512
            "relu" 2 5 5000 (1 / 1000)).stepsPerEpoch * 5 : ℕ) : ℝ) 0 0
        = ((1 / 1000 : ℚ) : ℝ)
    ∧ cosineDecayValue ((1 / 1000 : ℚ) : ℝ)
        (((fitPlan ⟨id, id, 32⟩ ⟨false, false, 0, [8], 100, [], []⟩ [] [] 512
            "relu" 2 5 5000 (1 / 1000)).stepsPerEpoch * 5 : ℕ) : ℝ) 0
        (((fitPlan ⟨id, id, 32⟩ ⟨false, false, 0, [8], 100, [], []⟩ [] [] 512
            "relu" 2 5 5000 (1 / 1000)).stepsPerEpoch * 5 : ℕ) : ℝ) = 0 := by
  have h := fit_training_configuration ⟨id, id, 32⟩
    ⟨false, false, 0, [8], 100, [], []⟩ [] [] 512 "relu" 2 5 5000 (1 / 1000)
    (fitPlan ⟨id, id, 32⟩ ⟨false, false, 0, [8], 100, [], []⟩ [] [] 512 "relu"
      2 5 5000 (1 / 1000)) rfl
  exact ⟨h.1 (by decide), h.2.1, h.2.2.1, h.2.2.2.1, h.2.2.2.2 (by decide)⟩

end DesignBench
